import Mathlib

/-!
Shallow embedding of `cipl_app/cipl_app/scripts/excel_import.py`: the
execution engine of the import (`process_excel_import`), the preview validator
(`validate_import_preview`) and the doctype query (`get_cipl_app_doctypes`).

External collaborators are modelled explicitly:
* the frappe record store is a list of named records with field maps;
* a pandas DataFrame is a header list plus a list of rows, a cell holding
  `none` for NaN (an empty cell);
* exceptions raised by the store calls (`frappe.db.get_value`, `doc.save`,
  `doc.insert`, `frappe.db.commit`) and by `pd.read_excel` are driven by a
  failure schedule in `Env`;
* `publish_progress` appends a structured event to the run's event list.

Python float arithmetic in `int(((idx + 1) / total_rows) * 100)` is
modelled by the exact natural-number floor division `((i + 1) * 100) / n`.
The numpy/Timestamp unwrapping on lines 258-261 is the identity here,
since cells already hold canonical scalar values.
-/

/-- A scalar cell/field value (a Python scalar after numpy unwrapping). -/
inductive Value where
  | intV  : Int → Value
  | strV  : String → Value
  | boolV : Bool → Value
  | dateV : Nat → Value
deriving DecidableEq, Repr

/-- Python truthiness of a scalar value, as used by `if unique_value:`. -/
def Value.truthy : Value → Bool
  | .intV n => n != 0
  | .strV s => s != ""
  | .boolV b => b
  | .dateV _ => true

/-- One pandas row: cells keyed by column name, `none` meaning NaN. -/
abbrev Row := List (String × Option Value)

/-- `row[excel_field]`: the cell of a column, flattening NaN to `none`. -/
def getCell (row : Row) (col : String) : Option Value :=
  (row.lookup col).join

/-- A loaded DataFrame: `df.columns.tolist()` plus `df.iterrows()`. -/
structure DataFrame where
  headers : List String
  rows : List Row

/-- A stored document: its `name`, its doctype, and its field values. -/
structure Record where
  name : String
  doctype : String
  fields : List (String × Value)
deriving DecidableEq, Repr

/-- The entity store. -/
abbrev Store := List Record

/-- `frappe.db.get_value(doctype_name, {field: value}, 'name')` (lines
272-276): the name of some stored record of that doctype whose field
equals the value, else `None`. -/
def findByField (store : Store) (doctype field : String) (value : Value) : Option String :=
  (store.find? (fun r => r.doctype == doctype && r.fields.lookup field == some value)).map
    (fun r => r.name)

/-- Assignment `d[k] = v` on a Python dict kept as an ordered assoc list:
overwrite in place when the key exists, else append. -/
def dictInsert (d : List (String × Value)) (k : String) (v : Value) : List (String × Value) :=
  match d with
  | [] => [(k, v)]
  | (k₁, v₁) :: rest => if k₁ = k then (k, v) :: rest else (k₁, v₁) :: dictInsert rest k v

/-- The arguments `process_excel_import` receives from `start_excel_import`:
entity type, field mapping (an ordered dict), optional unique field, and
the two flags (ints in Python, used only truthily). -/
structure Cfg where
  doctypeName : String
  fieldMapping : List (String × String)
  uniqueField : Option String
  allowCreate : Bool
  allowUpdate : Bool

/-- Lines 246-267: build `doc_data` and `unique_value` for one row.
`doc_data` starts as `{'doctype': doctype_name}`; for every mapping pair
whose excel field is a column, a non-NaN cell is assigned under the
doctype field, and its value recorded as `unique_value` when the doctype
field is the configured unique field. -/
def buildDocData (cfg : Cfg) (headers : List String) (row : Row) :
    List (String × Value) × Option Value :=
  cfg.fieldMapping.foldl
    (fun acc p =>
      if p.1 ∈ headers then
        match getCell row p.1 with
        | some v =>
            (dictInsert acc.1 p.2 v,
             if cfg.uniqueField = some p.2 then some v else acc.2)
        | none => acc
      else acc)
    ([("doctype", Value.strV cfg.doctypeName)], none)

/-- Python truthiness of the optional `unique_value`. -/
def uniqueTruthy : Option Value → Bool
  | some v => v.truthy
  | none => false

/-- Line 271, `if unique_field and unique_value:`: whether the duplicate
lookup is performed for a row. -/
def lookupPerformed (cfg : Cfg) (uniqueValue : Option Value) : Bool :=
  cfg.uniqueField.isSome && uniqueTruthy uniqueValue

/-- Lines 269-276: the `existing_doc` value — `None` unless the gated
lookup runs and finds a record. -/
def rowExisting (cfg : Cfg) (store : Store) (uniqueValue : Option Value) : Option String :=
  match cfg.uniqueField, uniqueValue with
  | some uf, some uv => if uv.truthy then findByField store cfg.doctypeName uf uv else none
  | some _, none => none
  | none, _ => none

/-- Lines 284-286: `setattr(doc, field, value)` for every `doc_data` item
except the `'doctype'` marker, applied to the record's field map. -/
def applyDocData (docData : List (String × Value)) (fields : List (String × Value)) :
    List (String × Value) :=
  docData.foldl (fun fs p => if p.1 = "doctype" then fs else dictInsert fs p.1 p.2) fields

/-- Lines 283-287: load the existing document by name, set the draft
fields on it, save. -/
def storeUpdate (store : Store) (doctype nm : String) (docData : List (String × Value)) : Store :=
  store.map (fun r =>
    if r.doctype == doctype && r.name == nm
    then { name := r.name, doctype := r.doctype, fields := applyDocData docData r.fields }
    else r)

/-- Lines 297-298: `frappe.get_doc(doc_data).insert(...)`; the framework
assigns a fresh name (modelled from the row index). -/
def storeInsert (store : Store) (doctype : String) (i : Nat) (docData : List (String × Value)) :
    Store :=
  store ++ [{ name := "new-" ++ toString i, doctype := doctype,
              fields := docData.filter (fun p => p.1 != "doctype") }]

/-- The failure schedule for the external collaborators: `dataset = none`
models `pd.read_excel` raising; the per-row flags model the store call on
that row index raising; `commitFails` models `frappe.db.commit` raising. -/
structure Env where
  dataset : Option DataFrame
  store : Store
  lookupFails : Nat → Bool
  saveFails : Nat → Bool
  insertFails : Nat → Bool
  commitFails : Bool

/-- What happened to one row: which counter line 288/292/299/303/316
increments. `error` is the row's exception reaching the `except` handler. -/
inductive RowOutcome where
  | created
  | updated
  | skipped
  | error
deriving DecidableEq, Repr

/-- Lines 245-303, the body of the per-row `try` up to the progress
publish: the row's outcome, the resulting store, and whether the
duplicate lookup was performed. -/
def processRow (cfg : Cfg) (env : Env) (i : Nat) (store : Store) (headers : List String)
    (row : Row) : RowOutcome × Store × Bool :=
  let bd := buildDocData cfg headers row
  let doLookup := lookupPerformed cfg bd.2
  if doLookup && env.lookupFails i then (.error, store, doLookup)
  else
    match rowExisting cfg store bd.2 with
    | some nm =>
        if cfg.allowUpdate then
          if env.saveFails i then (.error, store, doLookup)
          else (.updated, storeUpdate store cfg.doctypeName nm bd.1, doLookup)
        else (.skipped, store, doLookup)
    | none =>
        if cfg.allowCreate then
          if env.insertFails i then (.error, store, doLookup)
          else (.created, storeInsert store cfg.doctypeName i bd.1, doLookup)
        else (.skipped, store, doLookup)

/-- Status strings used by `publish_progress` callers. -/
inductive Status where
  | inProgress
  | completed
  | error
deriving DecidableEq, Repr

/-- A published realtime event (lines 355-368). -/
structure Event where
  progress : Nat
  total : Nat
  message : String
  status : Status
deriving DecidableEq, Repr

/-- `publish_progress(progress, total, message, status)`. -/
def publish_progress (progress total : Nat) (message : String) (status : Status) : Event :=
  { progress := progress, total := total, message := message, status := status }

/-- Line 306: publish on every 10th row and on the last row. -/
def cadence (i n : Nat) : Bool := (i + 1) % 10 == 0 || (i + 1) == n

/-- Lines 307-313: the in-progress event for row index `i` of `n`. -/
def progressEvent (i n : Nat) : Event :=
  publish_progress ((i + 1) * 100 / n) n
    ("Processing row " ++ toString (i + 1) ++ " of " ++ toString n) .inProgress

/-- The loop state of lines 228-323: the store plus the four counters,
the published events, the per-row outcomes in row order, and the indices
of rows whose duplicate lookup was performed. -/
structure LoopState where
  store : Store
  created : Nat
  updated : Nat
  skipped : Nat
  errors : Nat
  events : List Event
  outcomes : List RowOutcome
  lookups : List Nat

/-- Lines 228-232: all counters start at zero. -/
def initState (store : Store) : LoopState :=
  { store := store, created := 0, updated := 0, skipped := 0, errors := 0,
    events := [], outcomes := [], lookups := [] }

/-- One iteration of the row loop (lines 244-323): process the row,
increment the one matching counter, and publish the progress event only
when the row did not raise and the cadence condition holds — an erroring
row jumps to the `except` handler before line 306. -/
def stepRow (cfg : Cfg) (env : Env) (n : Nat) (headers : List String) (i : Nat)
    (st : LoopState) (row : Row) : LoopState :=
  let r := processRow cfg env i st.store headers row
  { store := r.2.1,
    created := st.created + (if r.1 = .created then 1 else 0),
    updated := st.updated + (if r.1 = .updated then 1 else 0),
    skipped := st.skipped + (if r.1 = .skipped then 1 else 0),
    errors := st.errors + (if r.1 = .error then 1 else 0),
    events := st.events ++ (if r.1 ≠ .error ∧ cadence i n then [progressEvent i n] else []),
    outcomes := st.outcomes ++ [r.1],
    lookups := st.lookups ++ (if r.2.2 then [i] else []) }

/-- The `for idx, row in df.iterrows()` loop, indices starting at `i`. -/
def runLoop (cfg : Cfg) (env : Env) (n : Nat) (headers : List String) :
    Nat → List Row → LoopState → LoopState
  | _, [], st => st
  | i, row :: rest, st =>
      runLoop cfg env n headers (i + 1) rest (stepRow cfg env n headers i st row)

/-- The observable result of a run: every event published, the store
after commit/rollback, the counters, the row outcomes, and the lookup
trace. -/
structure RunResult where
  events : List Event
  store : Store
  created : Nat
  updated : Nat
  skipped : Nat
  errors : Nat
  outcomes : List RowOutcome
  lookups : List Nat

/-- Lines 342-345: the final summary message. -/
def finalMessage (created updated skipped errors : Nat) : String :=
  "Import completed: " ++ toString created ++ " created, " ++ toString updated ++
    " updated, " ++ toString skipped ++ " skipped" ++
    (if errors > 0 then ", " ++ toString errors ++ " errors" else "")

/-- `process_excel_import` (lines 210-352).  A failed read publishes the
top-level error event and rolls back.  Zero rows publish one error event
and return.  Otherwise the loop runs; a failing `frappe.db.commit` takes
the top-level `except` path (error event, rollback to the initial store),
else the writes stand and the completed event is published.  The
best-effort file cleanup of lines 328-339 touches only the blob store and
swallows its own failures, so it has no bearing on the modelled state. -/
def process_excel_import (cfg : Cfg) (env : Env) : RunResult :=
  match env.dataset with
  | none =>
      { events := [publish_progress 0 0 "Import failed: read error" .error],
        store := env.store, created := 0, updated := 0, skipped := 0, errors := 0,
        outcomes := [], lookups := [] }
  | some df =>
      let n := df.rows.length
      if n = 0 then
        { events := [publish_progress 0 0 "No data found in Excel file" .error],
          store := env.store, created := 0, updated := 0, skipped := 0, errors := 0,
          outcomes := [], lookups := [] }
      else
        let st := runLoop cfg env n df.headers 0 df.rows (initState env.store)
        if env.commitFails then
          { events := st.events ++ [publish_progress 0 0 "Import failed: commit error" .error],
            store := env.store,
            created := st.created, updated := st.updated, skipped := st.skipped,
            errors := st.errors, outcomes := st.outcomes, lookups := st.lookups }
        else
          { events := st.events ++
              [publish_progress 100 n
                (finalMessage st.created st.updated st.skipped st.errors) .completed],
            store := st.store,
            created := st.created, updated := st.updated, skipped := st.skipped,
            errors := st.errors, outcomes := st.outcomes, lookups := st.lookups }

/-- The result record of `validate_import_preview` (lines 81-88). -/
structure PreviewResult where
  status : String
  total_excel_columns : Nat
  mapped_fields : List String
  missing_fields : List String
  missing_in_excel : List String
  has_missing : Bool
deriving DecidableEq, Repr

/-- `validate_import_preview` (lines 44-95) after the file and mapping
are loaded: classify the Excel columns against the mapping keys with the
three membership loops of lines 63-79. -/
def validate_import_preview (fieldMapping : List (String × String)) (excelColumns : List String) :
    PreviewResult :=
  let keys := fieldMapping.map Prod.fst
  let missingFields := excelColumns.filter (fun col => decide (col ∉ keys))
  let mappedFields := keys.filter (fun k => decide (k ∈ excelColumns))
  let missingInExcel := keys.filter (fun k => decide (k ∉ excelColumns))
  { status := "success",
    total_excel_columns := excelColumns.length,
    mapped_fields := mappedFields,
    missing_fields := missingFields,
    missing_in_excel := missingInExcel,
    has_missing := decide (missingFields.length > 0) || decide (missingInExcel.length > 0) }

/-- A row of the DocType table, with the columns the query filters on. -/
structure DocTypeRow where
  name : String
  moduleName : String
  istable : Bool
deriving DecidableEq, Repr

/-- SQL `LIKE '%txt%'`: `txt` occurs as a contiguous substring. -/
def likeContains (txt : String) (s : String) : Bool :=
  go s.toList
where
  go : List Char → Bool
  | [] => txt.toList.isPrefixOf ([] : List Char)
  | c :: rest => txt.toList.isPrefixOf (c :: rest) || go rest

/-- Insertion into a name-sorted list (for `order_by='name'`). -/
def insertByName (d : DocTypeRow) : List DocTypeRow → List DocTypeRow
  | [] => [d]
  | e :: rest => if e.name < d.name then e :: insertByName d rest else d :: e :: rest

/-- Stable sort of DocType rows by name. -/
def sortByName (l : List DocTypeRow) : List DocTypeRow :=
  l.foldr insertByName []

/-- Line 16. -/
def excluded_doctypes : List String := ["excel_field_mapping", "field_mapping_child"]

/-- `get_cipl_app_doctypes` (lines 9-39) over a modelled DocType table.
Faithful to the source: the `name` condition starts as
`['not in', excluded_doctypes]` and is overwritten by the LIKE condition
whenever `txt` is truthy (line 27 assigns to the same dict key). -/
def get_cipl_app_doctypes (db : List DocTypeRow) (txt : String) (start pageLen : Nat) :
    List (List String) :=
  let nameFilter : DocTypeRow → Bool :=
    if txt != "" then (fun d => likeContains txt d.name)
    else (fun d => decide (d.name ∉ excluded_doctypes))
  let rows := db.filter (fun d => d.moduleName == "Cipl App" && !d.istable && nameFilter d)
  (((sortByName rows).drop start).take pageLen).map (fun d => [d.name])

/-! ## Derived specification functions -/

/-- The outcome sequence the loop produces from index `i` on, with the
store threaded through exactly as `runLoop` threads it. -/
def outcomesFrom (cfg : Cfg) (env : Env) (headers : List String) :
    Nat → Store → List Row → List RowOutcome
  | _, _, [] => []
  | i, store, row :: rest =>
      (processRow cfg env i store headers row).1 ::
        outcomesFrom cfg env headers (i + 1) (processRow cfg env i store headers row).2.1 rest

/-- Which in-progress event (if any) line 306 publishes for the indexed
outcome of one row: one exactly when the row did not error and the
cadence condition holds. -/
def evSel (n : Nat) (p : Nat × RowOutcome) : Option Event :=
  if p.2 ≠ RowOutcome.error ∧ cadence p.1 n then some (progressEvent p.1 n) else none

/-! ## Helper lemmas about the loop -/

lemma outcomesFrom_length (cfg : Cfg) (env : Env) (headers : List String) :
    ∀ (rows : List Row) (i : Nat) (store : Store),
      (outcomesFrom cfg env headers i store rows).length = rows.length := by
  intro rows
  induction rows with
  | nil => intro i store; simp [outcomesFrom]
  | cons row rest ih => intro i store; simp [outcomesFrom, ih]

lemma runLoop_outcomes (cfg : Cfg) (env : Env) (n : Nat) (headers : List String) :
    ∀ (rows : List Row) (i : Nat) (st : LoopState),
      (runLoop cfg env n headers i rows st).outcomes
        = st.outcomes ++ outcomesFrom cfg env headers i st.store rows := by
  intro rows
  induction rows with
  | nil => intro i st; simp [runLoop, outcomesFrom]
  | cons row rest ih =>
      intro i st
      simp [runLoop, outcomesFrom, ih, stepRow]

lemma runLoop_events (cfg : Cfg) (env : Env) (n : Nat) (headers : List String) :
    ∀ (rows : List Row) (i : Nat) (st : LoopState),
      (runLoop cfg env n headers i rows st).events
        = st.events ++
            ((outcomesFrom cfg env headers i st.store rows).enumFrom i).filterMap (evSel n) := by
  intro rows
  induction rows with
  | nil => intro i st; simp [runLoop, outcomesFrom]
  | cons row rest ih =>
      intro i st
      by_cases hc :
          ((processRow cfg env i st.store headers row).1 ≠ RowOutcome.error ∧ cadence i n = true)
      · simp [runLoop, outcomesFrom, ih, stepRow, evSel, hc, List.filterMap_cons]
      · simp [runLoop, outcomesFrom, ih, stepRow, evSel, hc, List.filterMap_cons]

lemma stepRow_sum (cfg : Cfg) (env : Env) (n : Nat) (headers : List String) (i : Nat)
    (st : LoopState) (row : Row) :
    (stepRow cfg env n headers i st row).created + (stepRow cfg env n headers i st row).updated +
        (stepRow cfg env n headers i st row).skipped + (stepRow cfg env n headers i st row).errors
      = st.created + st.updated + st.skipped + st.errors + 1 := by
  simp only [stepRow]
  cases h : (processRow cfg env i st.store headers row).1 <;> simp [h] <;> omega

lemma runLoop_sum (cfg : Cfg) (env : Env) (n : Nat) (headers : List String) :
    ∀ (rows : List Row) (i : Nat) (st : LoopState),
      (runLoop cfg env n headers i rows st).created +
          (runLoop cfg env n headers i rows st).updated +
          (runLoop cfg env n headers i rows st).skipped +
          (runLoop cfg env n headers i rows st).errors
        = st.created + st.updated + st.skipped + st.errors + rows.length := by
  intro rows
  induction rows with
  | nil => intro i st; simp [runLoop]
  | cons row rest ih =>
      intro i st
      have h := stepRow_sum cfg env n headers i st row
      simp only [runLoop, ih, h, List.length_cons]
      omega

lemma evSel_pos (n i : Nat) (o : RowOutcome)
    (h : o ≠ RowOutcome.error ∧ cadence i n = true) :
    evSel n (i, o) = some (progressEvent i n) := by
  simp only [evSel]
  exact if_pos h

lemma evSel_neg (n i : Nat) (o : RowOutcome)
    (h : ¬(o ≠ RowOutcome.error ∧ cadence i n = true)) :
    evSel n (i, o) = none := by
  simp only [evSel]
  exact if_neg h

lemma evSel_mem (n : Nat) :
    ∀ (l : List RowOutcome) (i : Nat) (e : Event),
      e ∈ (l.enumFrom i).filterMap (evSel n) →
      ∃ j, i ≤ j ∧ j < i + l.length ∧ e = progressEvent j n := by
  intro l
  induction l with
  | nil => intro i e h; simp [List.enumFrom] at h
  | cons o rest ih =>
      intro i e h
      rw [List.enumFrom_cons] at h
      by_cases hc : (o ≠ RowOutcome.error ∧ cadence i n = true)
      · rw [List.filterMap_cons_some (evSel_pos n i o hc), List.mem_cons] at h
        rcases h with h | h
        · exact ⟨i, le_refl i, by simp, h⟩
        · obtain ⟨j, hj1, hj2, hj3⟩ := ih (i + 1) e h
          exact ⟨j, by omega, by simp; omega, hj3⟩
      · rw [List.filterMap_cons_none (evSel_neg n i o hc)] at h
        obtain ⟨j, hj1, hj2, hj3⟩ := ih (i + 1) e h
        exact ⟨j, by omega, by simp; omega, hj3⟩

lemma evSel_status (n : Nat) (l : List RowOutcome) (i : Nat) :
    ∀ e ∈ (l.enumFrom i).filterMap (evSel n), e.status = Status.inProgress := by
  intro e he
  obtain ⟨j, _, _, rfl⟩ := evSel_mem n l i e he
  rfl

lemma evSel_pairwise (n : Nat) :
    ∀ (l : List RowOutcome) (i : Nat),
      ((l.enumFrom i).filterMap (evSel n)).Pairwise
        (fun a b => a.progress ≤ b.progress) := by
  intro l
  induction l with
  | nil => intro i; simp [List.enumFrom]
  | cons o rest ih =>
      intro i
      rw [List.enumFrom_cons]
      by_cases hc : (o ≠ RowOutcome.error ∧ cadence i n = true)
      · rw [List.filterMap_cons_some (evSel_pos n i o hc)]
        refine List.Pairwise.cons ?_ (ih (i + 1))
        intro e he
        obtain ⟨j, hj1, _, rfl⟩ := evSel_mem n rest (i + 1) e he
        simp only [progressEvent, publish_progress]
        exact Nat.div_le_div_right (by omega)
      · rw [List.filterMap_cons_none (evSel_neg n i o hc)]
        exact ih (i + 1)

lemma evSel_progress_le (n : Nat) (hn : 0 < n) (l : List RowOutcome) (i : Nat)
    (hle : i + l.length ≤ n) :
    ∀ e ∈ (l.enumFrom i).filterMap (evSel n), e.progress ≤ 100 := by
  intro e he
  obtain ⟨j, hij, hjl, rfl⟩ := evSel_mem n l i e he
  simp only [progressEvent, publish_progress]
  calc (j + 1) * 100 / n ≤ n * 100 / n := Nat.div_le_div_right (by omega)
    _ = 100 := Nat.mul_div_cancel_left 100 hn

/-! ## Claim C3 -/

/-- C3: for every mapping `M` and header list `H`, the preview's
`mapped_fields` and `missing_in_excel` are a disjoint partition of the
keys of `M`, `missing_fields` is `H` minus the keys of `M`, and
`has_missing` is true iff `missing_fields` or `missing_in_excel` is
non-empty. -/
theorem c3_preview_partition (M : List (String × String)) (H : List String) :
    (∀ k, (k ∈ (validate_import_preview M H).mapped_fields ∨
            k ∈ (validate_import_preview M H).missing_in_excel) ↔ k ∈ M.map Prod.fst)
    ∧ (∀ k, ¬(k ∈ (validate_import_preview M H).mapped_fields ∧
              k ∈ (validate_import_preview M H).missing_in_excel))
    ∧ (∀ c, c ∈ (validate_import_preview M H).missing_fields ↔
            (c ∈ H ∧ c ∉ M.map Prod.fst))
    ∧ ((validate_import_preview M H).has_missing = true ↔
        ((validate_import_preview M H).missing_fields ≠ [] ∨
          (validate_import_preview M H).missing_in_excel ≠ [])) := by
  refine ⟨?_, ?_, ?_, ?_⟩
  · intro k
    simp only [validate_import_preview, List.mem_filter, decide_eq_true_eq]
    constructor
    · rintro (⟨h, _⟩ | ⟨h, _⟩) <;> exact h
    · intro h
      by_cases hk : k ∈ H
      · exact Or.inl ⟨h, by simpa using hk⟩
      · exact Or.inr ⟨h, by simpa using hk⟩
  · intro k
    simp only [validate_import_preview, List.mem_filter, decide_eq_true_eq]
    rintro ⟨⟨_, h1⟩, ⟨_, h2⟩⟩
    exact h2 h1
  · intro c
    simp [validate_import_preview, List.mem_filter]
  · simp only [validate_import_preview, Bool.or_eq_true, decide_eq_true_eq]
    simp only [gt_iff_lt, List.length_pos]

/-! ## Claim C7 -/

/-- C7 (code bug): when the search text is non-empty, line 27 overwrites
the `'name'` filter built on line 22, discarding the exclusion of the
mapping-definition doctypes — so `'excel_field_mapping'` is returned for
a matching search, although the same table with an empty search text
correctly excludes it. -/
theorem c7_search_drops_exclusion :
    get_cipl_app_doctypes
        [{ name := "excel_field_mapping", moduleName := "Cipl App", istable := false },
         { name := "customer", moduleName := "Cipl App", istable := false }] "mapping" 0 20
      = [["excel_field_mapping"]]
    ∧ get_cipl_app_doctypes
        [{ name := "excel_field_mapping", moduleName := "Cipl App", istable := false },
         { name := "customer", moduleName := "Cipl App", istable := false }] "" 0 20
      = [["customer"]] := by
  constructor <;> rfl

/-! ## Claim C9 -/

/-- C9: a dataset with zero rows publishes exactly one
`{progress: 0, total: 0, status: error}` event, returns without raising,
and leaves the store untouched (no row is ever processed). -/
theorem c9_zero_rows (cfg : Cfg) (env : Env) (df : DataFrame)
    (hdf : env.dataset = some df) (h0 : df.rows = []) :
    (process_excel_import cfg env).events
      = [publish_progress 0 0 "No data found in Excel file" Status.error]
    ∧ (process_excel_import cfg env).store = env.store
    ∧ (process_excel_import cfg env).created = 0
    ∧ (process_excel_import cfg env).updated = 0
    ∧ (process_excel_import cfg env).skipped = 0
    ∧ (process_excel_import cfg env).errors = 0
    ∧ (process_excel_import cfg env).outcomes = [] := by
  simp [process_excel_import, hdf, h0]

/-- Witness for C9 at a concrete empty dataset. -/
def envC9 : Env :=
  { dataset := some { headers := ["A"], rows := [] }, store := [],
    lookupFails := fun _ => false, saveFails := fun _ => false,
    insertFails := fun _ => false, commitFails := false }

/-- Concrete configuration used by several witnesses. -/
def cfgW : Cfg :=
  { doctypeName := "customer", fieldMapping := [("U", "u"), ("N", "nm")],
    uniqueField := some "u", allowCreate := true, allowUpdate := true }

theorem c9_zero_rows_witness :
    (process_excel_import cfgW envC9).events
      = [publish_progress 0 0 "No data found in Excel file" Status.error]
    ∧ (process_excel_import cfgW envC9).store = envC9.store
    ∧ (process_excel_import cfgW envC9).created = 0
    ∧ (process_excel_import cfgW envC9).updated = 0
    ∧ (process_excel_import cfgW envC9).skipped = 0
    ∧ (process_excel_import cfgW envC9).errors = 0
    ∧ (process_excel_import cfgW envC9).outcomes = [] :=
  c9_zero_rows cfgW envC9 { headers := ["A"], rows := [] } rfl rfl

/-! ## Claim C1 -/

/-- C1: the four-way reconciliation table.  With the store calls not
raising on row `i`: if an existing record was found and `allow_update` is
set, the row updates that record and increments only the update counter;
if found and `allow_update` is unset, the row is skipped (skip counter,
store untouched — so nothing is ever created even when `allow_create` is
set); if not found and `allow_create` is set, a record is created and
only the create counter incremented; if not found and `allow_create` is
unset, the row is skipped and the store untouched. -/
theorem c1_reconciliation_table (cfg : Cfg) (env : Env) (n : Nat) (headers : List String)
    (i : Nat) (st : LoopState) (row : Row)
    (hl : env.lookupFails i = false) (hs : env.saveFails i = false)
    (hi : env.insertFails i = false) :
    (∀ nm, rowExisting cfg st.store (buildDocData cfg headers row).2 = some nm →
      (cfg.allowUpdate = true →
        (stepRow cfg env n headers i st row).updated = st.updated + 1 ∧
        (stepRow cfg env n headers i st row).created = st.created ∧
        (stepRow cfg env n headers i st row).skipped = st.skipped ∧
        (stepRow cfg env n headers i st row).errors = st.errors ∧
        (stepRow cfg env n headers i st row).store
          = storeUpdate st.store cfg.doctypeName nm (buildDocData cfg headers row).1) ∧
      (cfg.allowUpdate = false →
        (stepRow cfg env n headers i st row).skipped = st.skipped + 1 ∧
        (stepRow cfg env n headers i st row).created = st.created ∧
        (stepRow cfg env n headers i st row).updated = st.updated ∧
        (stepRow cfg env n headers i st row).errors = st.errors ∧
        (stepRow cfg env n headers i st row).store = st.store))
    ∧ (rowExisting cfg st.store (buildDocData cfg headers row).2 = none →
      (cfg.allowCreate = true →
        (stepRow cfg env n headers i st row).created = st.created + 1 ∧
        (stepRow cfg env n headers i st row).updated = st.updated ∧
        (stepRow cfg env n headers i st row).skipped = st.skipped ∧
        (stepRow cfg env n headers i st row).errors = st.errors ∧
        (stepRow cfg env n headers i st row).store
          = storeInsert st.store cfg.doctypeName i (buildDocData cfg headers row).1) ∧
      (cfg.allowCreate = false →
        (stepRow cfg env n headers i st row).skipped = st.skipped + 1 ∧
        (stepRow cfg env n headers i st row).created = st.created ∧
        (stepRow cfg env n headers i st row).updated = st.updated ∧
        (stepRow cfg env n headers i st row).errors = st.errors ∧
        (stepRow cfg env n headers i st row).store = st.store)) := by
  constructor
  · intro nm hex
    constructor
    · intro hu
      simp [stepRow, processRow, hl, hex, hu, hs]
    · intro hu
      simp [stepRow, processRow, hl, hex, hu]
  · intro hex
    constructor
    · intro hc
      simp [stepRow, processRow, hl, hex, hc, hi]
    · intro hc
      simp [stepRow, processRow, hl, hex, hc]

/-- Inputs for the C1 witness: an existing record matches the row's
unique value while `allow_update` is off and `allow_create` is on. -/
def cfgC1 : Cfg :=
  { doctypeName := "customer", fieldMapping := [("U", "u")],
    uniqueField := some "u", allowCreate := true, allowUpdate := false }

def storeC1 : Store :=
  [{ name := "R1", doctype := "customer", fields := [("u", Value.intV 5)] }]

def envC1 : Env :=
  { dataset := none, store := storeC1, lookupFails := fun _ => false,
    saveFails := fun _ => false, insertFails := fun _ => false, commitFails := false }

def rowC1 : Row := [("U", some (Value.intV 5))]

theorem c1_witness :
    (stepRow cfgC1 envC1 1 ["U"] 0 (initState storeC1) rowC1).skipped
        = (initState storeC1).skipped + 1
    ∧ (stepRow cfgC1 envC1 1 ["U"] 0 (initState storeC1) rowC1).created
        = (initState storeC1).created
    ∧ (stepRow cfgC1 envC1 1 ["U"] 0 (initState storeC1) rowC1).updated
        = (initState storeC1).updated
    ∧ (stepRow cfgC1 envC1 1 ["U"] 0 (initState storeC1) rowC1).errors
        = (initState storeC1).errors
    ∧ (stepRow cfgC1 envC1 1 ["U"] 0 (initState storeC1) rowC1).store
        = (initState storeC1).store :=
  ((c1_reconciliation_table cfgC1 envC1 1 ["U"] 0 (initState storeC1) rowC1
      rfl rfl rfl).1 "R1" (by decide)).2 rfl

/-! ## Claim C2 -/

/-- C2: after the loop over `N ≥ 1` rows, the four counters sum to `N` —
each row increments exactly one — and the outcome list has one entry per
row even when rows error: no row aborts the remaining ones. -/
theorem c2_counter_sum (cfg : Cfg) (env : Env) (df : DataFrame)
    (hdf : env.dataset = some df) (hn : 1 ≤ df.rows.length) :
    (process_excel_import cfg env).created + (process_excel_import cfg env).updated +
        (process_excel_import cfg env).skipped + (process_excel_import cfg env).errors
      = df.rows.length
    ∧ (process_excel_import cfg env).outcomes.length = df.rows.length := by
  have hne : ¬(df.rows.length = 0) := by omega
  have hsum := runLoop_sum cfg env df.rows.length df.headers df.rows 0 (initState env.store)
  have hout := runLoop_outcomes cfg env df.rows.length df.headers df.rows 0 (initState env.store)
  have hlen := outcomesFrom_length cfg env df.headers df.rows 0 env.store
  simp only [initState] at hsum hout
  by_cases hcf : env.commitFails = true
  · refine ⟨?_, ?_⟩
    · simpa [process_excel_import, hdf, hne, hcf] using hsum
    · have : (process_excel_import cfg env).outcomes
          = outcomesFrom cfg env df.headers 0 env.store df.rows := by
        simpa [process_excel_import, hdf, hne, hcf] using hout
      rw [this, hlen]
  · refine ⟨?_, ?_⟩
    · simpa [process_excel_import, hdf, hne, hcf] using hsum
    · have : (process_excel_import cfg env).outcomes
          = outcomesFrom cfg env df.headers 0 env.store df.rows := by
        simpa [process_excel_import, hdf, hne, hcf] using hout
      rw [this, hlen]

/-- Concrete one-row dataset for the C2 witness. -/
def dfC2 : DataFrame := { headers := ["U", "N"], rows := [[("U", some (Value.intV 5))]] }

def envC2 : Env :=
  { dataset := some dfC2, store := [], lookupFails := fun _ => false,
    saveFails := fun _ => false, insertFails := fun _ => false, commitFails := false }

theorem c2_counter_sum_witness :
    (process_excel_import cfgW envC2).created + (process_excel_import cfgW envC2).updated +
        (process_excel_import cfgW envC2).skipped + (process_excel_import cfgW envC2).errors = 1
    ∧ (process_excel_import cfgW envC2).outcomes.length = 1 :=
  c2_counter_sum cfgW envC2 dfC2 rfl (by decide)

/-! ## dict lemmas for C8 -/

lemma lookup_dictInsert_self (d : List (String × Value)) (k : String) (v : Value) :
    (dictInsert d k v).lookup k = some v := by
  induction d with
  | nil => simp [dictInsert]
  | cons p rest ih =>
      rcases p with ⟨k₁, v₁⟩
      by_cases h : k₁ = k
      · simp [dictInsert, h]
      · have hb : (k == k₁) = false := by
          simp [Ne.symm h]
        simp [dictInsert, h, List.lookup, hb, ih]

lemma lookup_dictInsert_ne (d : List (String × Value)) (k k' : String) (v : Value)
    (h : k' ≠ k) : (dictInsert d k v).lookup k' = d.lookup k' := by
  have hb : (k' == k) = false := by
    simp [h]
  induction d with
  | nil => simp [dictInsert, List.lookup, hb]
  | cons p rest ih =>
      rcases p with ⟨k₁, v₁⟩
      by_cases h₁ : k₁ = k
      · subst h₁
        simp [dictInsert, List.lookup, hb]
      · by_cases h₂ : k' = k₁
        · have hb₂ : (k' == k₁) = true := by
            simp [h₂]
          simp [dictInsert, h₁, List.lookup, hb₂]
        · have hb₂ : (k' == k₁) = false := by
            simp [h₂]
          simp [dictInsert, h₁, List.lookup, hb₂, ih]

lemma applyDocData_not_mem (f : String) :
    ∀ (docData fields : List (String × Value)), f ∉ docData.map Prod.fst →
      (applyDocData docData fields).lookup f = fields.lookup f := by
  intro docData
  induction docData with
  | nil => intro fields _; simp [applyDocData]
  | cons p rest ih =>
      intro fields h
      rcases p with ⟨k, w⟩
      simp only [List.map_cons, List.mem_cons, not_or] at h
      by_cases hk : k = "doctype"
      · have : applyDocData ((k, w) :: rest) fields = applyDocData rest fields := by
          simp [applyDocData, hk]
        rw [this]
        exact ih fields h.2
      · have : applyDocData ((k, w) :: rest) fields
            = applyDocData rest (dictInsert fields k w) := by
          simp [applyDocData, hk]
        rw [this, ih (dictInsert fields k w) h.2]
        exact lookup_dictInsert_ne fields k f w h.1

lemma applyDocData_mem (f : String) (v : Value) (hf : f ≠ "doctype") :
    ∀ (docData fields : List (String × Value)), (docData.map Prod.fst).Nodup →
      (f, v) ∈ docData → (applyDocData docData fields).lookup f = some v := by
  intro docData
  induction docData with
  | nil => intro fields _ hmem; simp at hmem
  | cons p rest ih =>
      intro fields hnd hmem
      rcases p with ⟨k, w⟩
      simp only [List.map_cons, List.nodup_cons] at hnd
      rcases List.mem_cons.mp hmem with heq | hmem₂
      · have h1 : f = k := congrArg Prod.fst heq
        have h2 : v = w := congrArg Prod.snd heq
        subst h1
        subst h2
        have hstep : applyDocData ((f, v) :: rest) fields
            = applyDocData rest (dictInsert fields f v) := by
          simp [applyDocData, hf]
        rw [hstep, applyDocData_not_mem f rest (dictInsert fields f v) hnd.1]
        exact lookup_dictInsert_self fields f v
      · have hkf : k ≠ f := by
          intro hkf
          exact hnd.1 (hkf ▸ List.mem_map_of_mem Prod.fst hmem₂)
        by_cases hk : k = "doctype"
        · have hstep : applyDocData ((k, w) :: rest) fields = applyDocData rest fields := by
            simp [applyDocData, hk]
          rw [hstep]
          exact ih fields hnd.2 hmem₂
        · have hstep : applyDocData ((k, w) :: rest) fields
              = applyDocData rest (dictInsert fields k w) := by
            simp [applyDocData, hk]
          rw [hstep]
          exact ih (dictInsert fields k w) hnd.2 hmem₂

/-! ## Claim C8 -/

/-- C8: partial update, never replace — applying `doc_data` per lines
284-286 overwrites every non-marker field present in the draft with the
draft's value, and leaves every field of the existing record that is
absent from the draft unchanged. -/
theorem c8_partial_update (docData fields : List (String × Value)) (f : String)
    (hnd : (docData.map Prod.fst).Nodup) (hf : f ≠ "doctype") :
    (∀ v, (f, v) ∈ docData → (applyDocData docData fields).lookup f = some v)
    ∧ (f ∉ docData.map Prod.fst →
        (applyDocData docData fields).lookup f = fields.lookup f) :=
  ⟨fun v hv => applyDocData_mem f v hf docData fields hnd hv,
   fun h => applyDocData_not_mem f docData fields h⟩

/-- Concrete draft and record fields for the C8 witness. -/
def docW8 : List (String × Value) := [("doctype", Value.strV "customer"), ("a", Value.intV 1)]

def fldW8 : List (String × Value) := [("a", Value.intV 9), ("b", Value.intV 2)]

theorem c8_partial_update_witness :
    (applyDocData docW8 fldW8).lookup "a" = some (Value.intV 1)
    ∧ (applyDocData docW8 fldW8).lookup "b" = fldW8.lookup "b" :=
  ⟨(c8_partial_update docW8 fldW8 "a" (by decide) (by decide)).1 (Value.intV 1) (by decide),
   (c8_partial_update docW8 fldW8 "b" (by decide) (by decide)).2 (by decide)⟩

/-! ## Claim C4 -/

/-- A lookup that is not performed leaves `existing_doc` as `None`. -/
lemma rowExisting_eq_none (cfg : Cfg) (store : Store) (uv : Option Value)
    (h : lookupPerformed cfg uv = false) : rowExisting cfg store uv = none := by
  rcases hu : cfg.uniqueField with _ | uf <;> rcases hv : uv with _ | v <;>
    simp_all [rowExisting, lookupPerformed, uniqueTruthy]

/-- In every branch of `processRow`, the lookup trace equals the line-271
condition `unique_field and unique_value`. -/
lemma processRow_lookupTrace (cfg : Cfg) (env : Env) (i : Nat) (store : Store)
    (headers : List String) (row : Row) :
    (processRow cfg env i store headers row).2.2
      = lookupPerformed cfg (buildDocData cfg headers row).2 := by
  simp only [processRow]
  split
  · rfl
  · split <;> split <;> first
      | rfl
      | (split <;> rfl)

/-- C4 (amended): the duplicate lookup runs iff a unique field is
configured and the row's `unique_value` is truthy — not merely non-null:
`if unique_field and unique_value:` uses Python truthiness, so a falsy
scalar such as 0 skips the lookup and the row is treated as having no
existing record (created when `allow_create` is set, else skipped). -/
theorem c4_lookup_truthiness (cfg : Cfg) (env : Env) (i : Nat) (store : Store)
    (headers : List String) (row : Row) (hi : env.insertFails i = false) :
    ((processRow cfg env i store headers row).2.2
        = lookupPerformed cfg (buildDocData cfg headers row).2)
    ∧ (lookupPerformed cfg (buildDocData cfg headers row).2
        = (cfg.uniqueField.isSome && uniqueTruthy (buildDocData cfg headers row).2))
    ∧ (lookupPerformed cfg (buildDocData cfg headers row).2 = false →
        (processRow cfg env i store headers row).1
          = (if cfg.allowCreate then RowOutcome.created else RowOutcome.skipped)
        ∧ (cfg.allowCreate = false →
            (processRow cfg env i store headers row).2.1 = store)) := by
  refine ⟨processRow_lookupTrace cfg env i store headers row, rfl, ?_⟩
  intro hnl
  have hex := rowExisting_eq_none cfg store (buildDocData cfg headers row).2 hnl
  have hdl : (lookupPerformed cfg (buildDocData cfg headers row).2 && env.lookupFails i)
      = false := by
    rw [hnl, Bool.false_and]
  constructor
  · by_cases hc : cfg.allowCreate = true
    · simp [processRow, hdl, hex, hc, hi]
    · simp at hc
      simp [processRow, hdl, hex, hc]
  · intro hc
    simp [processRow, hdl, hex, hc]

/-- C4 counterexample input: the row's unique value is the non-null but
falsy scalar 0, and a record with that unique value exists. -/
def dfC4 : DataFrame := { headers := ["U"], rows := [[("U", some (Value.intV 0))]] }

def envC4 : Env :=
  { dataset := some dfC4,
    store := [{ name := "R1", doctype := "customer", fields := [("u", Value.intV 0)] }],
    lookupFails := fun _ => false, saveFails := fun _ => false,
    insertFails := fun _ => false, commitFails := false }

/-- C4 counterexample: the unique value is non-null (`0`), a matching
record exists and `allow_update` is on, yet no lookup is performed and
the row is created, not updated — refuting "any non-null unique value
(including 0 ...) triggers the lookup". -/
theorem c4_counterexample :
    (buildDocData cfgW ["U"] [("U", some (Value.intV 0))]).2 = some (Value.intV 0)
    ∧ cfgW.allowUpdate = true
    ∧ (process_excel_import cfgW envC4).lookups = []
    ∧ (process_excel_import cfgW envC4).updated = 0
    ∧ (process_excel_import cfgW envC4).created = 1 := by
  decide

theorem c4_lookup_truthiness_witness :
    ((processRow cfgW envC4 0 [] ["U"] [("U", some (Value.intV 0))]).2.2
        = lookupPerformed cfgW (buildDocData cfgW ["U"] [("U", some (Value.intV 0))]).2)
    ∧ (lookupPerformed cfgW (buildDocData cfgW ["U"] [("U", some (Value.intV 0))]).2
        = (cfgW.uniqueField.isSome
            && uniqueTruthy (buildDocData cfgW ["U"] [("U", some (Value.intV 0))]).2))
    ∧ (lookupPerformed cfgW (buildDocData cfgW ["U"] [("U", some (Value.intV 0))]).2 = false →
        (processRow cfgW envC4 0 [] ["U"] [("U", some (Value.intV 0))]).1
          = (if cfgW.allowCreate then RowOutcome.created else RowOutcome.skipped)
        ∧ (cfgW.allowCreate = false →
            (processRow cfgW envC4 0 [] ["U"] [("U", some (Value.intV 0))]).2.1 = [])) :=
  c4_lookup_truthiness cfgW envC4 0 [] ["U"] [("U", some (Value.intV 0))] rfl

/-! ## Claims C5, C6, C10 -/

lemma getLast?_append_singleton {α : Type} (l : List α) (a : α) :
    (l ++ [a]).getLast? = some a := by
  simp [List.getLast?_append_of_ne_nil]

/-- On the read-ok path the run's event list is the loop's in-progress
events followed by the one terminal event. -/
lemma run_events_shape (cfg : Cfg) (env : Env) (df : DataFrame)
    (hdf : env.dataset = some df) (hn : 1 ≤ df.rows.length) :
    (process_excel_import cfg env).events
      = (((outcomesFrom cfg env df.headers 0 env.store df.rows).enumFrom 0).filterMap
          (evSel df.rows.length))
        ++ [if env.commitFails
            then publish_progress 0 0 "Import failed: commit error" Status.error
            else
              publish_progress 100 df.rows.length
                (finalMessage (process_excel_import cfg env).created
                  (process_excel_import cfg env).updated
                  (process_excel_import cfg env).skipped
                  (process_excel_import cfg env).errors) Status.completed] := by
  have hne : ¬(df.rows.length = 0) := by omega
  have hev := runLoop_events cfg env df.rows.length df.headers df.rows 0 (initState env.store)
  simp only [initState] at hev
  by_cases hcf : env.commitFails = true
  · simp [process_excel_import, hdf, hne, hcf, initState, hev]
  · simp only [Bool.not_eq_true] at hcf
    simp [process_excel_import, hdf, hne, hcf, initState, hev]

/-- On the read-ok path the run's outcome list is `outcomesFrom`. -/
lemma run_outcomes_shape (cfg : Cfg) (env : Env) (df : DataFrame)
    (hdf : env.dataset = some df) (hn : 1 ≤ df.rows.length) :
    (process_excel_import cfg env).outcomes
      = outcomesFrom cfg env df.headers 0 env.store df.rows := by
  have hne : ¬(df.rows.length = 0) := by omega
  have hout := runLoop_outcomes cfg env df.rows.length df.headers df.rows 0 (initState env.store)
  simp only [initState] at hout
  by_cases hcf : env.commitFails = true
  · simp [process_excel_import, hdf, hne, hcf, initState, hout]
  · simp [process_excel_import, hdf, hne, hcf, initState, hout]

/-- C5 (amended): the in-progress events of a run are exactly one event
`⌊((i+1)*100)/N⌋ percent` per row index `i` that satisfies the cadence
condition (every 10th row or the last row) **and** whose processing did
not error — an erroring row publishes no progress event, because the
publish sits at the end of the per-row `try` block. -/
theorem c5_progress_cadence (cfg : Cfg) (env : Env) (df : DataFrame)
    (hdf : env.dataset = some df) (hn : 1 ≤ df.rows.length) :
    (process_excel_import cfg env).events.filter (fun e => e.status == Status.inProgress)
      = ((process_excel_import cfg env).outcomes.enum).filterMap (evSel df.rows.length) := by
  have hsh := run_events_shape cfg env df hdf hn
  have hout := run_outcomes_shape cfg env df hdf hn
  have hall : ∀ e ∈ ((outcomesFrom cfg env df.headers 0 env.store df.rows).enumFrom 0).filterMap
      (evSel df.rows.length), (e.status == Status.inProgress) = true := by
    intro e he
    have := evSel_status df.rows.length _ 0 e he
    simp [this]
  rw [hsh, hout, List.filter_append, List.filter_eq_self.mpr hall]
  have hlast : List.filter (fun e => e.status == Status.inProgress)
      [if env.commitFails
       then publish_progress 0 0 "Import failed: commit error" Status.error
       else
         publish_progress 100 df.rows.length
           (finalMessage (process_excel_import cfg env).created
             (process_excel_import cfg env).updated
             (process_excel_import cfg env).skipped
             (process_excel_import cfg env).errors) Status.completed] = [] := by
    by_cases hcf : env.commitFails = true <;> simp [hcf, publish_progress]
  rw [hlast, List.append_nil]
  rfl

/-- C5 counterexample input: a single-row dataset whose only row errors
(`doc.insert` raises), with the store otherwise healthy. -/
def envX5 : Env :=
  { dataset := some dfC2, store := [], lookupFails := fun _ => false,
    saveFails := fun _ => false, insertFails := fun _ => true, commitFails := false }

/-- C5 counterexample: the single (hence last) row errors, and the run
publishes **no** in-progress event at all — refuting "unconditionally
after the last row, regardless of whether that row succeeded or
errored". -/
theorem c5_counterexample :
    (process_excel_import cfgW envX5).outcomes = [RowOutcome.error]
    ∧ (process_excel_import cfgW envX5).events.filter
        (fun e => e.status == Status.inProgress) = []
    ∧ (process_excel_import cfgW envX5).events
        = [publish_progress 100 1 (finalMessage 0 0 0 1) Status.completed] := by
  decide

theorem c5_progress_cadence_witness :
    (process_excel_import cfgW envC2).events.filter (fun e => e.status == Status.inProgress)
      = ((process_excel_import cfgW envC2).outcomes.enum).filterMap (evSel 1) :=
  c5_progress_cadence cfgW envC2 dfC2 rfl (by decide)

/-- C6 (amended): on the success path the run's events are non-decreasing
in progress_percent and end in the `100 / completed` event; on the
top-level failure path the final event is `0 / 0 / error` — which can lie
below earlier in-progress events, so the full sequence need not be
non-decreasing there. -/
theorem c6_progress_monotone (cfg : Cfg) (env : Env) (df : DataFrame)
    (hdf : env.dataset = some df) (hn : 1 ≤ df.rows.length) :
    (env.commitFails = false →
      List.Pairwise (fun a b => a.progress ≤ b.progress) (process_excel_import cfg env).events
      ∧ ((process_excel_import cfg env).events.getLast?).map
          (fun e => (e.progress, e.total, e.status))
        = some (100, df.rows.length, Status.completed))
    ∧ (env.commitFails = true →
      ((process_excel_import cfg env).events.getLast?).map
          (fun e => (e.progress, e.total, e.status))
        = some (0, 0, Status.error)) := by
  have hsh := run_events_shape cfg env df hdf hn
  constructor
  · intro hcf
    rw [hsh, hcf, if_neg (by simp)]
    constructor
    · rw [List.pairwise_append]
      refine ⟨evSel_pairwise df.rows.length _ 0, by simp, ?_⟩
      intro a ha b hb
      rw [List.mem_singleton.mp hb]
      have hbound : (0 : Nat) + (outcomesFrom cfg env df.headers 0 env.store df.rows).length
          ≤ df.rows.length := by
        rw [outcomesFrom_length]
        omega
      calc a.progress ≤ 100 :=
            evSel_progress_le df.rows.length (by omega) _ 0 hbound a ha
        _ = (publish_progress 100 df.rows.length
              (finalMessage (process_excel_import cfg env).created
                (process_excel_import cfg env).updated
                (process_excel_import cfg env).skipped
                (process_excel_import cfg env).errors) Status.completed).progress := rfl
    · rw [getLast?_append_singleton]
      rfl
  · intro hcf
    rw [hsh, hcf, if_pos rfl, getLast?_append_singleton]
    rfl

/-- C6 counterexample input: one successful row, then `frappe.db.commit`
raises, taking the top-level failure path. -/
def envX6 : Env :=
  { dataset := some dfC2, store := [], lookupFails := fun _ => false,
    saveFails := fun _ => false, insertFails := fun _ => false, commitFails := true }

/-- C6 counterexample: the run publishes an in-progress event at 100
percent and then the terminal error event at 0 percent — the sequence is
not non-decreasing, refuting the claim's conjunction of monotonicity with
the `progress 0` error final event. -/
theorem c6_counterexample :
    (process_excel_import cfgW envX6).events.map (fun e => (e.progress, e.status))
      = [(100, Status.inProgress), (0, Status.error)]
    ∧ ¬ List.Pairwise (fun a b => a.progress ≤ b.progress)
        (process_excel_import cfgW envX6).events := by
  decide

theorem c6_progress_monotone_witness :
    List.Pairwise (fun a b => a.progress ≤ b.progress) (process_excel_import cfgW envC2).events
    ∧ ((process_excel_import cfgW envC2).events.getLast?).map
        (fun e => (e.progress, e.total, e.status)) = some (100, 1, Status.completed) :=
  (c6_progress_monotone cfgW envC2 dfC2 rfl (by decide)).1 rfl

/-- C10: the top-level failure handler calls `publish_progress(0, 0, ...)`
with a hard-coded total of 0 (line 351), so a mid-run failure with
`total_rows ≥ 1` ends in a `{progress 0, total 0, status error}` event —
the same progress/total/status triple as the zero-row event of line 224. -/
theorem c10_failure_event_total_zero (cfg : Cfg) (env : Env) (df : DataFrame)
    (hdf : env.dataset = some df) (hn : 1 ≤ df.rows.length)
    (hc : env.commitFails = true) :
    ((process_excel_import cfg env).events.getLast?).map
        (fun e => (e.progress, e.total, e.status)) = some (0, 0, Status.error)
    ∧ (∀ (cfg₂ : Cfg) (env₂ : Env) (df₂ : DataFrame),
        env₂.dataset = some df₂ → df₂.rows = [] →
        ((process_excel_import cfg₂ env₂).events.getLast?).map
            (fun e => (e.progress, e.total, e.status)) = some (0, 0, Status.error)) := by
  constructor
  · exact (c6_progress_monotone cfg env df hdf hn).2 hc
  · intro cfg₂ env₂ df₂ hdf₂ h0
    simp [process_excel_import, hdf₂, h0, publish_progress]

theorem c10_failure_event_total_zero_witness :
    ((process_excel_import cfgW envX6).events.getLast?).map
        (fun e => (e.progress, e.total, e.status)) = some (0, 0, Status.error)
    ∧ (∀ (cfg₂ : Cfg) (env₂ : Env) (df₂ : DataFrame),
        env₂.dataset = some df₂ → df₂.rows = [] →
        ((process_excel_import cfg₂ env₂).events.getLast?).map
            (fun e => (e.progress, e.total, e.status)) = some (0, 0, Status.error)) :=
  c10_failure_event_total_zero cfgW envX6 dfC2 rfl (by decide) rfl
